import Mathlib

/-!
Shallow embedding of the light-client core of this tendermint-rs fork.

Source files embedded:
* `light-client/src/light_client.rs` — `LightClient::verify_to_target` and
  `LightClient::get_or_fetch_block`.
* `tendermint/src/block.rs` — `Block::new`, `impl TryFrom<RawBlock> for Block`,
  `impl From<Block> for RawBlock`.

Auxiliary types used by that code (`LightBlock`, `Status`, the `LightStore`
trait, the I/O component, `Header`, `Commit`, ...) live outside the given
source tree; they are modelled from the specification where noted.
-/

namespace LC

/-- Verification status of a light block in the store
(`Unverified`, `Verified`, `Trusted`, `Failed`). -/
inductive Status where
  | unverified
  | verified
  | trusted
  | failed
deriving DecidableEq, Repr

/-- Modelled from the spec: a `LightBlock` (§3) is
`(signed_header, validators, next_validators, provider)`; here it is flattened
to the fields the light-client code observes: the header height, the header
time, and the provider peer id (peer ids and times are opaque, modelled as
naturals). -/
structure LightBlock where
  height : Nat
  time : Nat
  provider : Nat
deriving DecidableEq, Repr

/-- Modelled from the spec: the light store (§4.3) maps each height to at most
one `(block, status)` entry. -/
def LightStore := Nat → Option (LightBlock × Status)

/-- Modelled from the spec (§4.3): `get_non_failed(height)` returns the entry
at `height` only if its status is not `Failed`. -/
def LightStore.get_non_failed (s : LightStore) (h : Nat) :
    Option (LightBlock × Status) :=
  match s h with
  | some (b, st) => if st = Status.failed then none else some (b, st)
  | none => none

/-- Modelled from the spec (§4.3): `insert(block, status)` inserts or
overwrites the entry at `block.height`; if an entry already exists there
with a byte-different header, the call is rejected with `ConflictingBlock`
and the store is left unchanged. In this flattened model the header fields
of a `LightBlock` are its height and time (the provider is not part of the
header). The call site in `get_or_fetch_block` discards the rejection, so a
rejected insert is observable only as the store staying unchanged. -/
def LightStore.insert (s : LightStore) (b : LightBlock) (st : Status) :
    LightStore :=
  match s b.height with
  | some (b0, _) =>
      if b0.height = b.height ∧ b0.time = b.time then
        fun h => if h = b.height then some (b, st) else s h
      else s
  | none => fun h => if h = b.height then some (b, st) else s h

/-- `State` from `light-client/src/state.rs` (outside the given sources),
restricted to the one field `light_client.rs` uses: the light store. -/
structure State where
  light_store : LightStore

/-- Modelled from the spec (§4.2/§6): errors of the I/O component. -/
inductive IoError where
  | timeout
  | heightNotFound
  | invalidBlock
  | transport
  | canceled
deriving DecidableEq, Repr

/-- Modelled from the spec (§7): the error kinds `light_client.rs` can surface
or that the spec names for `verify_to_target`. The code in `src/` only ever
produces `ioErr`. -/
inductive ErrorKind where
  | ioErr (e : IoError)
  | noInitialTrustedState
  | targetBelowTrusted
  | trustedStateExpired
deriving DecidableEq, Repr

/-- Modelled from the spec (§4.2): the I/O component's
`fetch_light_block(At h)`, as a function from the requested height to a block
or an I/O error. (`AtHeight::Highest` is not needed by any claim.) -/
def Fetcher := Nat → Except IoError LightBlock

/-- `TrustThreshold` as a rational `numerator/denominator`. -/
structure TrustThreshold where
  numerator : Nat
  denominator : Nat
deriving DecidableEq, Repr

/-- `Options` from `light_client.rs` (durations as naturals). -/
structure Options where
  trust_threshold : TrustThreshold
  trusting_period : Nat
  clock_drift : Nat
deriving DecidableEq, Repr

/-- The `LightClient` struct: peer id, options, clock and I/O component.
The clock is modelled by the value `now` it would return; the scheduler and
verifier components are omitted because the code in `src/` never invokes
them. -/
structure LightClient where
  peer : Nat
  options : Options
  now : Nat
  ioComp : Fetcher

/-- Outcome of `get_or_fetch_block`: a successful `(block, status)` pair, an
error, or an abort of the `#[post(...)]` runtime contract (the `contracts`
crate compiles the postcondition on line 167 of `light_client.rs` into a
runtime assertion; its failure is a panic, not a return). -/
inductive FetchResult where
  | ok (b : LightBlock) (st : Status)
  | err (e : ErrorKind)
  | contractViolation
deriving DecidableEq, Repr

/-- The body of `LightClient::get_or_fetch_block` (`light_client.rs` lines
168-187), instrumented with the number of I/O calls performed (third
component) and returning the updated state (second component). It looks up
the non-failed store entry; on a miss it fetches via I/O, wraps an I/O error
as `ErrorKind::Io`, and otherwise inserts the fetched block as `Unverified`
and returns it. -/
def fetch_body (c : LightClient) (height : Nat) (s : State) :
    FetchResult × State × Nat :=
  match s.light_store.get_non_failed height with
  | some (b, st) => (FetchResult.ok b st, s, 0)
  | none =>
    match c.ioComp height with
    | Except.error e => (FetchResult.err (ErrorKind.ioErr e), s, 1)
    | Except.ok block =>
        (FetchResult.ok block Status.unverified,
         { light_store := s.light_store.insert block Status.unverified }, 1)

/-- The `#[post(ret.as_ref().map(|(lb, _)| lb.provider == self.peer)
.unwrap_or(true))]` contract on `get_or_fetch_block` (`light_client.rs` line
167): the `contracts` crate compiles it into an assertion on the computed
return value, run after the body (so after any store insertion); its failure
aborts instead of returning. -/
def checkPost (peer : Nat) : FetchResult × State × Nat →
    FetchResult × State × Nat
  | (FetchResult.ok b st, s1, n) =>
      if b.provider = peer then (FetchResult.ok b st, s1, n)
      else (FetchResult.contractViolation, s1, n)
  | (FetchResult.err e, s1, n) => (FetchResult.err e, s1, n)
  | (FetchResult.contractViolation, s1, n) =>
      (FetchResult.contractViolation, s1, n)

/-- `LightClient::get_or_fetch_block` (`light_client.rs` lines 167-187):
the body followed by the runtime postcondition check. -/
def LightClient.get_or_fetch_block (c : LightClient) (height : Nat)
    (s : State) : FetchResult × State × Nat :=
  checkPost c.peer (fetch_body c height s)

/-- Result of `verify_to_target`: the block on success, otherwise the
propagated error or contract abort. -/
inductive VerifyResult where
  | ok (b : LightBlock)
  | err (e : ErrorKind)
  | contractViolation
deriving DecidableEq, Repr

/-- `LightClient::verify_to_target` (`light_client.rs` lines 150-157): the
body is exactly `let (light_block, _) = self.get_or_fetch_block(target_height,
state)?; Ok(light_block)` — it delegates to `get_or_fetch_block`, drops the
status, and propagates errors. -/
def LightClient.verify_to_target (c : LightClient) (target_height : Nat)
    (s : State) : VerifyResult × State × Nat :=
  match c.get_or_fetch_block target_height s with
  | (FetchResult.ok b _, s1, n) => (VerifyResult.ok b, s1, n)
  | (FetchResult.err e, s1, n) => (VerifyResult.err e, s1, n)
  | (FetchResult.contractViolation, s1, n) => (VerifyResult.contractViolation, s1, n)

/-- An I/O component that returns, for each requested height, a block at that
height with time 0 from provider 0. Used as a concrete well-behaved fetcher. -/
def okFetcher : Fetcher := fun h => Except.ok ⟨h, 0, 0⟩

/-- The empty light store. -/
def emptyStore : LightStore := fun _ => none

/-- A state with an empty light store. -/
def emptyState : State := ⟨emptyStore⟩

/-- Default options: threshold 1/3, trusting period 10, clock drift 0. -/
def demoOptions : Options := ⟨⟨1, 3⟩, 10, 0⟩

/-- A concrete client: peer 0, default options, local time 1000, the
well-behaved fetcher. -/
def demoClient : LightClient := ⟨0, demoOptions, 1000, okFetcher⟩

/-- A store holding exactly one entry: the trusted anchor `⟨1, 0, 0⟩`
(height 1, time 0, provider 0) at height 1. -/
def seededStore : LightStore :=
  fun h => if h = 1 then some (⟨1, 0, 0⟩, Status.trusted) else none

/-- A state whose store holds only the trusted anchor at height 1. -/
def seededState : State := ⟨seededStore⟩

/-- A store holding one unverified entry at height 1 provided by peer 7. -/
def foreignStore : LightStore :=
  fun h => if h = 1 then some (⟨1, 0, 7⟩, Status.unverified) else none

/-- A state whose store holds only the foreign-provider entry at height 1. -/
def foreignState : State := ⟨foreignStore⟩

/-- A client whose I/O component always fails with a timeout. -/
def failClient : LightClient :=
  ⟨0, demoOptions, 1000, fun _ => Except.error IoError.timeout⟩

/-- A store holding one `Failed` entry at height 2 whose header (time 99)
differs from the block the well-behaved fetcher returns at height 2. -/
def conflictStore : LightStore :=
  fun h => if h = 2 then some (⟨2, 99, 0⟩, Status.failed) else none

/-- A state whose store holds only the conflicting `Failed` entry at
height 2. -/
def conflictState : State := ⟨conflictStore⟩

end LC

namespace TM

/-- Modelled from the spec (§3): a block header, with its hash-valued fields
as opaque naturals and `last_block_id` absent at height 1. Only `height` is
inspected by the code in `src/`. -/
structure Header where
  chain_id : Nat
  height : Nat
  time : Nat
  last_block_id : Option Nat
  validators_hash : Nat
  next_validators_hash : Nat
  app_hash : Nat
deriving DecidableEq, Repr

/-- Modelled from the spec (§3): a commit signature is absent, a nil vote, or
a positive vote carrying `(validator_address, timestamp, signature)`. -/
inductive CommitSig where
  | absent
  | nilVote (validator_address : Nat) (timestamp : Nat) (signature : Nat)
  | commitVote (validator_address : Nat) (timestamp : Nat) (signature : Nat)
deriving DecidableEq, Repr

/-- Modelled from the spec (§3): a commit for `block_id` at `height`, with its
list of commit signatures. -/
structure Commit where
  height : Nat
  round : Nat
  block_id : Nat
  signatures : List CommitSig
deriving DecidableEq, Repr

/-- `Commit::default()`: the all-zero commit with no signatures. -/
def Commit.default : Commit := ⟨0, 0, 0, []⟩

/-- Transaction data (`abci::transaction::Data`), opaque to `block.rs`. -/
def TxData := List Nat
deriving instance DecidableEq, Repr for TxData

/-- Evidence data (`evidence::Data`), opaque to `block.rs`. -/
def EvidenceData := List Nat
deriving instance DecidableEq, Repr for EvidenceData

/-- Error kinds of `tendermint/src/error.rs` reachable from `block.rs`. -/
inductive Kind where
  | invalidBlock
  | missingHeader
  | missingData
  | missingEvidence
deriving DecidableEq, Repr

/-- An error: a kind with an optional context message, so that
`Kind::InvalidBlock.context("...").into()` and `Kind::InvalidBlock.into()`
stay distinguishable. -/
structure Error where
  kind : Kind
  context : Option String
deriving DecidableEq, Repr

/-- The `Block` struct of `tendermint/src/block.rs`: header, transaction
data, evidence, and optional last commit. -/
structure Block where
  header : Header
  data : TxData
  evidence : EvidenceData
  last_commit : Option Commit
deriving DecidableEq, Repr

/-- `tendermint_proto::types::Block` (`RawBlock`): the protobuf form, every
component field optional. Component payloads reuse the domain types, which
models the assumption that the header/data/evidence component conversions
round-trip (those conversions live outside `src/`). -/
structure RawBlock where
  header : Option Header
  data : Option TxData
  evidence : Option EvidenceData
  last_commit : Option Commit
deriving DecidableEq, Repr

/-- `Block::new` (`block.rs` lines 95-113): rejects a missing `last_commit`
when the header height is not 1, rejects a present `last_commit` when the
height is 1, and otherwise builds the block. -/
def Block.new (header : Header) (data : TxData) (evidence : EvidenceData)
    (last_commit : Option Commit) : Except Error Block :=
  if last_commit.isNone ∧ header.height ≠ 1 then
    Except.error ⟨Kind.invalidBlock, none⟩
  else if last_commit.isSome ∧ header.height = 1 then
    Except.error ⟨Kind.invalidBlock, none⟩
  else
    Except.ok ⟨header, data, evidence, last_commit⟩

/-- `impl TryFrom<RawBlock> for Block` (`block.rs` lines 52-80): requires the
header; maps a present `last_commit` equal to `Commit::default()` to `None`
(the inlined `filter`); rejects an absent (post-filter) `last_commit` at
height ≠ 1; the commented-out height-1 check is absent; then requires data
and evidence. -/
def Block.try_from (value : RawBlock) : Except Error Block :=
  match value.header with
  | none => Except.error ⟨Kind.missingHeader, none⟩
  | some header =>
    let last_commit : Option Commit :=
      match value.last_commit with
      | some c => if c = Commit.default then none else some c
      | none => none
    if last_commit.isNone ∧ header.height ≠ 1 then
      Except.error ⟨Kind.invalidBlock, some "last_commit is empty on non-first block"⟩
    else
      match value.data with
      | none => Except.error ⟨Kind.missingData, none⟩
      | some data =>
        match value.evidence with
        | none => Except.error ⟨Kind.missingEvidence, none⟩
        | some evidence =>
          Except.ok ⟨header, data, evidence, last_commit⟩

/-- `impl From<Block> for RawBlock` (`block.rs` lines 82-91): wrap every
component in `Some`, pass `last_commit` through. -/
def Block.to_raw (value : Block) : RawBlock :=
  ⟨some value.header, some value.data, some value.evidence, value.last_commit⟩

/-- A concrete header at height 1. -/
def hdr1 : Header := ⟨0, 1, 0, none, 0, 0, 0⟩

/-- A concrete header at height 2. -/
def hdr2 : Header := ⟨0, 2, 0, some 5, 0, 0, 0⟩

/-- A concrete commit different from `Commit::default()` (its height is 1). -/
def commit1 : Commit := ⟨1, 0, 0, []⟩

/-- A concrete commit different from `Commit::default()` (its height is 2). -/
def commit2 : Commit := ⟨2, 0, 0, []⟩

/-- A concrete block at height 2 with a non-default last commit. -/
def demoBlock2 : Block := ⟨hdr2, [], [], some commit2⟩

end TM

namespace LC

/-- The runtime contract check leaves the state and I/O-call count of its
argument untouched. -/
theorem checkPost_snd (p : Nat) (r : FetchResult × State × Nat) :
    (checkPost p r).2 = r.2 := by
  obtain ⟨fr, s1, n⟩ := r
  cases fr with
  | ok b st => by_cases hp : b.provider = p <;> simp [checkPost, hp]
  | err e => rfl
  | contractViolation => rfl

/-- If the contract check returns an `ok` result, that result is the body's
result unchanged and the returned block's provider equals the peer. -/
theorem checkPost_ok_inv {p : Nat} {r : FetchResult × State × Nat}
    {b : LightBlock} {st : Status} {s1 : State} {n : Nat}
    (hc : checkPost p r = (FetchResult.ok b st, s1, n)) :
    r = (FetchResult.ok b st, s1, n) ∧ b.provider = p := by
  obtain ⟨fr, s2, n2⟩ := r
  cases fr with
  | ok b2 st2 =>
    simp only [checkPost] at hc
    by_cases hp : b2.provider = p
    · rw [if_pos hp] at hc
      simp only [Prod.mk.injEq, FetchResult.ok.injEq] at hc
      obtain ⟨⟨hb, hst⟩, hs, hn⟩ := hc
      subst hb; subst hst; subst hs; subst hn
      exact ⟨rfl, hp⟩
    · rw [if_neg hp] at hc
      simp at hc
  | err e => simp [checkPost] at hc
  | contractViolation => simp [checkPost] at hc

/-- C1: the claim says a successful `verify_to_target` leaves the returned
block recorded as `Trusted` in the light store. On the code, starting from an
empty store with target height 2, `verify_to_target` succeeds but the store
records the returned block with status `Unverified` — no promotion to
`Trusted` ever happens. -/
theorem verify_to_target_no_trusted_promotion :
    (demoClient.verify_to_target 2 emptyState).1 = VerifyResult.ok ⟨2, 0, 0⟩ ∧
    ((demoClient.verify_to_target 2 emptyState).2.1).light_store 2 =
      some (⟨2, 0, 0⟩, Status.unverified) :=
  ⟨rfl, rfl⟩

/-- C2: the claim says `verify_to_target` first consults
`latest_trusted()` and, with no trusted block, fails with
`NoInitialTrustedState` without I/O. On the code, with an empty store (so no
trusted block) and target height 1, the call instead performs one I/O call
and returns the fetched block successfully. -/
theorem verify_to_target_skips_initialization_checks :
    (demoClient.verify_to_target 1 emptyState).1 = VerifyResult.ok ⟨1, 0, 0⟩ ∧
    (demoClient.verify_to_target 1 emptyState).2.2 = 1 ∧
    (demoClient.verify_to_target 1 emptyState).1 ≠
      VerifyResult.err ErrorKind.noInitialTrustedState :=
  ⟨rfl, rfl, by decide⟩

/-- C3: the claim says that when the latest trusted block is outside its
trusting period, `verify_to_target` fails with `TrustedStateExpired` and
performs zero I/O. On the code, with a trusted anchor of time 0, trusting
period 10 and local time 1000 (so the anchor is long expired), the call to
target height 2 performs one I/O call and succeeds. -/
theorem verify_to_target_ignores_trusting_period :
    seededStore 1 = some (⟨1, 0, 0⟩, Status.trusted) ∧
    (⟨1, 0, 0⟩ : LightBlock).time + demoClient.options.trusting_period ≤
      demoClient.now ∧
    (demoClient.verify_to_target 2 seededState).1 = VerifyResult.ok ⟨2, 0, 0⟩ ∧
    (demoClient.verify_to_target 2 seededState).2.2 = 1 :=
  ⟨rfl, by decide, rfl, rfl⟩

/-- C5 (counterexample): the claim says that whenever the store holds a
non-`Failed` entry at `h`, `get_or_fetch_block(h)` returns exactly that
entry. With a store holding the entry `(⟨1, 0, 7⟩, Unverified)` at height 1
and a client whose peer is 0, the runtime `#[post]` contract aborts the call
(the entry's provider 7 differs from the peer), so that entry is not
returned. -/
theorem get_or_fetch_block_store_hit_foreign_provider :
    foreignState.light_store.get_non_failed 1 =
      some (⟨1, 0, 7⟩, Status.unverified) ∧
    (demoClient.get_or_fetch_block 1 foreignState).1 =
      FetchResult.contractViolation ∧
    (demoClient.get_or_fetch_block 1 foreignState).1 ≠
      FetchResult.ok ⟨1, 0, 7⟩ Status.unverified :=
  ⟨by decide, by decide, by decide⟩

/-- C4: every successful `get_or_fetch_block` call returns a block whose
provider equals the client's configured peer, under the hypothesis that the
I/O component only returns blocks whose provider equals that peer. (The
runtime `#[post]` contract aborts rather than returns on a violation, so the
postcondition holds on both the store-hit path and the fetch path.) -/
theorem get_or_fetch_block_provider_matches_peer
    (c : LightClient) (h : Nat) (s : State) (b : LightBlock) (st : Status)
    (s1 : State) (n : Nat)
    (_hio : ∀ h1 b1, c.ioComp h1 = Except.ok b1 → b1.provider = c.peer)
    (hrun : c.get_or_fetch_block h s = (FetchResult.ok b st, s1, n)) :
    b.provider = c.peer := by
  unfold LightClient.get_or_fetch_block at hrun
  exact (checkPost_ok_inv hrun).2

/-- Witness for C4 at a concrete input: peer 0, empty store, height 1,
well-behaved fetcher. -/
theorem get_or_fetch_block_provider_matches_peer_witness :
    (⟨1, 0, 0⟩ : LightBlock).provider = demoClient.peer :=
  get_or_fetch_block_provider_matches_peer demoClient 1 emptyState
    ⟨1, 0, 0⟩ Status.unverified
    ⟨LightStore.insert emptyStore ⟨1, 0, 0⟩ Status.unverified⟩ 1
    (fun h1 b1 hb => by
      simp only [demoClient, okFetcher] at hb
      injection hb with hb2
      rw [← hb2]
      rfl)
    rfl

/-- C5 (amended): if the store holds a non-`Failed` entry at `h` whose
provider equals the client's peer, `get_or_fetch_block(h)` returns exactly
that entry, leaves the state unchanged and performs zero I/O calls; and in
every case a single invocation performs at most one I/O call. -/
theorem get_or_fetch_block_store_hit_and_single_fetch
    (c : LightClient) (h : Nat) (s : State) :
    (∀ b st, s.light_store.get_non_failed h = some (b, st) →
        b.provider = c.peer →
        c.get_or_fetch_block h s = (FetchResult.ok b st, s, 0)) ∧
    (c.get_or_fetch_block h s).2.2 ≤ 1 := by
  constructor
  · intro b st hget hprov
    unfold LightClient.get_or_fetch_block fetch_body
    rw [hget]
    simp [checkPost, hprov]
  · unfold LightClient.get_or_fetch_block
    rw [checkPost_snd]
    unfold fetch_body
    split
    · simp
    · split <;> simp

/-- Witness for C5 at a concrete input: the seeded store holds the trusted
anchor (provider 0 = peer) at height 1. -/
theorem get_or_fetch_block_store_hit_and_single_fetch_witness :
    demoClient.get_or_fetch_block 1 seededState =
      (FetchResult.ok ⟨1, 0, 0⟩ Status.trusted, seededState, 0) :=
  (get_or_fetch_block_store_hit_and_single_fetch demoClient 1 seededState).1
    ⟨1, 0, 0⟩ Status.trusted (by decide) (by decide)

/-- C10: if the store has no non-`Failed` entry at `h` and the I/O fetch
fails with `e`, `get_or_fetch_block(h)` returns the error wrapped as
`ErrorKind::Io` and leaves the state completely unchanged (after the one
failed I/O call). -/
theorem get_or_fetch_block_io_error_atomic
    (c : LightClient) (h : Nat) (s : State) (e : IoError)
    (h1 : s.light_store.get_non_failed h = none)
    (h2 : c.ioComp h = Except.error e) :
    c.get_or_fetch_block h s = (FetchResult.err (ErrorKind.ioErr e), s, 1) := by
  unfold LightClient.get_or_fetch_block fetch_body
  rw [h1, h2]
  rfl

/-- Witness for C10 at a concrete input: empty store, always-failing
fetcher. -/
theorem get_or_fetch_block_io_error_atomic_witness :
    failClient.get_or_fetch_block 3 emptyState =
      (FetchResult.err (ErrorKind.ioErr IoError.timeout), emptyState, 1) :=
  get_or_fetch_block_io_error_atomic failClient 3 emptyState IoError.timeout
    rfl rfl

/-- C6 (counterexample): the claim as stated fails when the store holds a
`Failed` entry at the target height whose header differs from the fetched
block: the first call succeeds (its `ConflictingBlock` insert rejection is
discarded, leaving the store unchanged), and the immediately repeated call
on the resulting state performs one more I/O call instead of zero. -/
theorem verify_to_target_second_call_fetches_again :
    (demoClient.verify_to_target 2 conflictState).1 =
      VerifyResult.ok ⟨2, 0, 0⟩ ∧
    (demoClient.verify_to_target 2
        (demoClient.verify_to_target 2 conflictState).2.1).2.2 = 1 ∧
    (demoClient.verify_to_target 2
        (demoClient.verify_to_target 2 conflictState).2.1).2.2 ≠ 0 :=
  ⟨rfl, rfl, by decide⟩

/-- C6 (amended): if `verify_to_target(h)` succeeds with block `b` and
resulting state `s1`, an immediately repeated call on `s1` performs zero I/O
calls and returns the same block `b` (with the state unchanged), under the
I/O component's guarantee that a fetch at height `h1` returns a block of
height `h1`, and provided any `Failed` entry already stored at `h` has the
same header as the block the provider returns at `h` (otherwise the first
call's insert is rejected with `ConflictingBlock` and discarded, and the
second call fetches again). -/
theorem verify_to_target_idempotent
    (c : LightClient) (h : Nat) (s : State) (b : LightBlock) (s1 : State)
    (n : Nat)
    (hio : ∀ h1 b1, c.ioComp h1 = Except.ok b1 → b1.height = h1)
    (hnoc : ∀ b0 st0 b1, s.light_store h = some (b0, st0) →
      st0 = Status.failed → c.ioComp h = Except.ok b1 →
      b0.height = b1.height ∧ b0.time = b1.time)
    (hrun : c.verify_to_target h s = (VerifyResult.ok b, s1, n)) :
    c.verify_to_target h s1 = (VerifyResult.ok b, s1, 0) := by
  unfold LightClient.verify_to_target at hrun ⊢
  split at hrun
  next b2 st2 s2 n2 heq =>
    simp only [Prod.mk.injEq, VerifyResult.ok.injEq] at hrun
    obtain ⟨hb2, hs2, hn2⟩ := hrun
    subst hb2; subst hs2
    unfold LightClient.get_or_fetch_block at heq
    obtain ⟨hbody, hprov⟩ := checkPost_ok_inv heq
    unfold fetch_body at hbody
    split at hbody
    next b3 st3 heq2 =>
      simp only [Prod.mk.injEq, FetchResult.ok.injEq] at hbody
      obtain ⟨⟨hb3, hst3⟩, hs0, hn0⟩ := hbody
      subst hb3; subst hst3; subst hs0
      have hfb : fetch_body c h s = (FetchResult.ok b3 st3, s, 0) := by
        unfold fetch_body
        rw [heq2]
      unfold LightClient.get_or_fetch_block
      rw [hfb]
      simp [checkPost, hprov]
    next heq2 =>
      split at hbody
      next e heq3 => simp at hbody
      next blk heq3 =>
        simp only [Prod.mk.injEq, FetchResult.ok.injEq] at hbody
        obtain ⟨⟨hb3, hst3⟩, hs0, hn0⟩ := hbody
        subst hb3; subst hst3; subst hs0
        have hh : blk.height = h := hio h blk heq3
        unfold LightClient.get_or_fetch_block fetch_body
        cases hsh : s.light_store h with
        | none =>
          simp [LightStore.get_non_failed, LightStore.insert, hh, hsh,
            checkPost, hprov]
        | some entry =>
          obtain ⟨b0, st0⟩ := entry
          have hst0 : st0 = Status.failed := by
            unfold LightStore.get_non_failed at heq2
            rw [hsh] at heq2
            by_contra hne
            simp [hne] at heq2
          subst hst0
          obtain ⟨hcf1, hcf2⟩ := hnoc b0 Status.failed blk hsh rfl heq3
          simp [LightStore.get_non_failed, LightStore.insert, hh, hsh,
            hcf1, hcf2, checkPost, hprov]
  next e s2 n2 heq => simp at hrun
  next s2 n2 heq => simp at hrun

/-- Witness for C6 at a concrete input: the state reached by a successful
first call from the empty store at target height 1. -/
theorem verify_to_target_idempotent_witness :
    demoClient.verify_to_target 1
        ⟨LightStore.insert emptyStore ⟨1, 0, 0⟩ Status.unverified⟩ =
      (VerifyResult.ok ⟨1, 0, 0⟩,
       ⟨LightStore.insert emptyStore ⟨1, 0, 0⟩ Status.unverified⟩, 0) :=
  verify_to_target_idempotent demoClient 1 emptyState ⟨1, 0, 0⟩
    ⟨LightStore.insert emptyStore ⟨1, 0, 0⟩ Status.unverified⟩ 1
    (fun h1 b1 hb => by
      simp only [demoClient, okFetcher] at hb
      injection hb with hb2
      rw [← hb2])
    (fun b0 st0 b1 hx => by simp [emptyState, emptyStore] at hx)
    rfl

end LC

namespace TM

/-- C7: `Block::new(header, data, evidence, last_commit)` succeeds iff
`last_commit` is present exactly when `header.height ≠ 1`; otherwise it
returns an `InvalidBlock` error. -/
theorem block_new_last_commit_height_rule
    (h : Header) (d : TxData) (e : EvidenceData) (lc : Option Commit) :
    ((∃ b, Block.new h d e lc = Except.ok b) ↔
      (lc.isSome ↔ h.height ≠ 1)) ∧
    (¬(lc.isSome = true ↔ h.height ≠ 1) →
      Block.new h d e lc = Except.error ⟨Kind.invalidBlock, none⟩) := by
  unfold Block.new
  by_cases hh : h.height = 1 <;> cases lc <;> simp [hh]

/-- Witness for C7 at a concrete input: a height-2 header with an absent
last commit is rejected with `InvalidBlock`. -/
theorem block_new_last_commit_height_rule_witness :
    Block.new hdr2 ([] : TxData) ([] : EvidenceData) none =
      Except.error ⟨Kind.invalidBlock, none⟩ :=
  (block_new_last_commit_height_rule hdr2 [] [] none).2 (by decide)

/-- C8: the claim says `Block::try_from` rejects a raw block at height 1
whose `last_commit` is present and differs from `Commit::default()`. On the
code, the height-1 check is commented out, so such a raw block converts
successfully and keeps its last commit. -/
theorem block_try_from_accepts_commit_at_height_one :
    hdr1.height = 1 ∧
    commit1 ≠ Commit.default ∧
    Block.try_from ⟨some hdr1, some ([] : TxData), some ([] : EvidenceData),
        some commit1⟩ =
      Except.ok ⟨hdr1, ([] : TxData), ([] : EvidenceData), some commit1⟩ :=
  ⟨rfl, by decide, rfl⟩

/-- C9: for every block accepted by `Block::new` whose `last_commit`, if
present, differs from `Commit::default()`, converting to a `RawBlock` and
back yields the same block (component conversions are modelled as
round-tripping, as the claim assumes). -/
theorem block_roundtrip
    (h : Header) (d : TxData) (e : EvidenceData) (lc : Option Commit)
    (b : Block)
    (hnd : lc ≠ some Commit.default)
    (hnew : Block.new h d e lc = Except.ok b) :
    Block.try_from (Block.to_raw b) = Except.ok b := by
  unfold Block.new at hnew
  split at hnew
  next hA => exact absurd hnew (by simp)
  next hA =>
    split at hnew
    next hB => exact absurd hnew (by simp)
    next hB =>
      injection hnew with hb
      subst hb
      rcases lc with _ | C
      · have h1 : h.height = 1 := by
          by_contra hne
          exact hA ⟨rfl, hne⟩
        unfold Block.to_raw Block.try_from
        simp [h1]
      · have hC : C ≠ Commit.default := fun hc => hnd (by rw [hc])
        unfold Block.to_raw Block.try_from
        simp [hC]

/-- Witness for C9 at a concrete input: the height-2 demo block with a
non-default commit round-trips. -/
theorem block_roundtrip_witness :
    Block.try_from (Block.to_raw demoBlock2) = Except.ok demoBlock2 :=
  block_roundtrip hdr2 [] [] (some commit2) demoBlock2 (by decide) rfl

end TM
